import Mathlib

/-!
Verification of the iencode job-pipeline repository.

Shallow embedding of the Python sources:
  * `src/worker/utils.py`  — `generate_standard_filename`, `create_progress_bar`
  * `src/worker/tasks.py`  — `_run_download_and_prep`, `_run_encode_and_upload`,
    the module-level environment configuration, and the ffmpeg progress parsing
  * `src/database.py` and `src/bot/database.py` — the Mongo-backed job store
    (`add_job`, `get_job`, `update_job_status`, `remove_job`, `get_user_jobs`)
  * `src/bot/bot.py` — the `job_data` record assembled at intake

Modelling conventions:
  * Python `str` is `String`, processed as `List Char` (ASCII semantics for the
    case-insensitive regex fragments, which is exact for every string the
    program manipulates here).
  * Python `float` arithmetic is modelled as exact rational arithmetic (`ℚ`).
  * Python `int` is `ℤ` (unbounded, as in Python).
  * Fallible code returns `Option`/`Except`; a raised exception is an
    `Except.error` carrying the exception kind and message.
-/

namespace IEnc

/-! ### Character and string helpers (Python `str` semantics on `List Char`) -/

/-- Python whitespace for `str.strip()` / `int()` (ASCII subset): space, tab,
newline, carriage return, vertical tab, form feed. -/
def isSpaceCh (c : Char) : Bool :=
  c = ' ' || c = '\t' || c = '\n' || c = '\r' || c = '\x0b' || c = '\x0c'

/-- Python `str.strip()` with no argument: drop whitespace from both ends. -/
def trimL (l : List Char) : List Char :=
  ((l.dropWhile isSpaceCh).reverse.dropWhile isSpaceCh).reverse

/-- Lower-case an ASCII code point, for `re.IGNORECASE` matching. -/
def lowerNat (n : ℕ) : ℕ := if 65 ≤ n ∧ n ≤ 90 then n + 32 else n

/-- Case-insensitive ASCII character equality. -/
def ciCharEq (a b : Char) : Bool := lowerNat a.toNat = lowerNat b.toNat

/-- Does `hay` start with `needle` (exact match)? -/
def startsWithL : List Char → List Char → Bool
  | [], _ => true
  | _ :: _, [] => false
  | a :: as, b :: bs => a == b && startsWithL as bs

/-- Python `needle in hay` substring test. -/
def containsL (n : List Char) : List Char → Bool
  | [] => n.isEmpty
  | c :: t => startsWithL n (c :: t) || containsL n t

/-- Python `needle in hay` on `String`s. -/
def containsStr (needle hay : String) : Bool := containsL needle.toList hay.toList

/-- Does `hay` start with `needle`, comparing ASCII case-insensitively? -/
def ciStartsWith : List Char → List Char → Bool
  | [], _ => true
  | _ :: _, [] => false
  | a :: as, b :: bs => ciCharEq a b && ciStartsWith as bs

/-- Python `line.split("=")`: split on every occurrence of `'='`, keeping
empty pieces, exactly like `str.split` with an explicit separator. -/
def splitEqAux : List Char → List Char → List (List Char)
  | [], acc => [acc.reverse]
  | c :: t, acc => if c = '=' then acc.reverse :: splitEqAux t [] else splitEqAux t (c :: acc)

/-! ### Python `int(str)` -/

/-- Numeric value of an ASCII digit. -/
def digitVal (c : Char) : ℕ := c.toNat - 48

/-- Digit run of Python `int()`: decimal digits, optionally separated by single
underscores that must sit between two digits. -/
def pyDigitsAux : List Char → ℕ → Option ℕ
  | [], acc => some acc
  | c :: rest, acc =>
    if c.isDigit then pyDigitsAux rest (acc * 10 + digitVal c)
    else if c = '_' then
      match rest with
      | [] => none
      | d :: rest2 => if d.isDigit then pyDigitsAux rest2 (acc * 10 + digitVal d) else none
    else none

/-- Nonempty digit run (first character must be a digit, no leading underscore). -/
def pyDigits : List Char → Option ℕ
  | [] => none
  | c :: rest => if c.isDigit then pyDigitsAux rest (digitVal c) else none

/-- Python `int(s)` for a decimal string: surrounding whitespace is ignored,
one optional sign, then digits; anything else raises `ValueError` (`none`). -/
def pyIntL (cs : List Char) : Option ℤ :=
  match trimL cs with
  | '-' :: rest => (pyDigits rest).map (fun n => -(n : ℤ))
  | '+' :: rest => (pyDigits rest).map (fun n => (n : ℤ))
  | rest => (pyDigits rest).map (fun n => (n : ℤ))

/-- Python `int(s)` on a `String`. -/
def pyInt (s : String) : Option ℤ := pyIntL s.toList

/-! ### `create_progress_bar` (src/worker/utils.py lines 133-138)

Python floats are modelled as exact rationals. -/

/-- Python `int(x)` on a number: truncation toward zero. -/
def pyTrunc (q : ℚ) : ℤ := if q < 0 then ⌈q⌉ else ⌊q⌋

/-- Two-digit zero-padded decimal, as in `f-string` `{n:02d}` for `n < 100`. -/
def pad2 (n : ℕ) : String := if n < 10 then "0" ++ toString n else toString n

/-- Round to the nearest integer, ties to the even integer (the rounding used
by Python's fixed-point float formatting, on the exact rational value). -/
def roundHalfEvenZ (q : ℚ) : ℤ :=
  let f := ⌊q⌋
  let frac := q - (f : ℚ)
  if frac < 1 / 2 then f
  else if 1 / 2 < frac then f + 1
  else if f % 2 = 0 then f else f + 1

/-- Python `f\x7bpercent:.2f\x7d`: two decimal places. -/
def formatFixed2 (q : ℚ) : String :=
  let n := roundHalfEvenZ (q * 100)
  let m := n.natAbs
  let sign := if n < 0 then "-" else ""
  sign ++ toString (m / 100) ++ "." ++ pad2 (m % 100)

/-- Line 135: `percent = float(current) * 100 / float(total)`. -/
def progressPercent (current total : ℚ) : ℚ := current * 100 / total

/-- Line 136: `arrow = '█' * int(percent/100 * bar_length)`. -/
def progressArrowLen (current total : ℚ) (bar_length : ℕ) : ℕ :=
  (pyTrunc (progressPercent current total / 100 * (bar_length : ℚ))).toNat

/-- Lines 136-137: the 20-cell bar body, filled cells then empty cells
(`spaces = '░' * (bar_length - len(arrow))`, empty when negative). -/
def progressCells (current total : ℚ) (bar_length : ℕ) : List Char :=
  let arrow := List.replicate (progressArrowLen current total bar_length) '█'
  arrow ++ List.replicate (bar_length - arrow.length) '░'

/-- `create_progress_bar(current, total, bar_length=20)` from
src/worker/utils.py lines 133-138. -/
def create_progress_bar (current total : ℚ) (bar_length : ℕ) : String :=
  if total = 0 then "[" ++ String.mk (List.replicate bar_length '░') ++ "] 0.00%"
  else
    "[" ++ String.mk (progressCells current total bar_length) ++ "] "
      ++ formatFixed2 (progressPercent current total) ++ "%"

/-! ### `generate_standard_filename` (src/worker/utils.py lines 61-115)

Each `re.sub`/`re.search` of the source is implemented directly for its
concrete pattern, with Python's leftmost / non-greedy / backtracking
semantics and ASCII `re.IGNORECASE`. -/

/-- Index of the last occurrence of a character. -/
def lastIdxOf (ch : Char) : List Char → Option ℕ
  | [] => none
  | c :: t =>
    match lastIdxOf ch t with
    | some i => some (i + 1)
    | none => if c = ch then some 0 else none

/-- Python `os.path.splitext(p)[0]` for a bare filename: split at the last
dot, unless every character before that dot is itself a dot. -/
def splitextRoot (s : String) : String :=
  let cs := s.toList
  match lastIdxOf '.' cs with
  | none => s
  | some i =>
    if 0 < i ∧ (cs.take i).any (fun c => c ≠ '.') then String.mk (cs.take i) else s

/-- Position of the first closing delimiter, failing at a newline (regex `.`
does not match `'\n'`, so `re.sub` of `open .*? close` finds no match there). -/
def findCloseIdx (cl : Char) : List Char → Option ℕ
  | [] => none
  | c :: rest =>
    if c = cl then some 0
    else if c = '\n' then none
    else (findCloseIdx cl rest).map (· + 1)

/-- Scanner for `removeDelim`, structurally recursive on a fuel bound that
dominates the list length (each step consumes at least one character). -/
def removeDelimAux (op cl : Char) : ℕ → List Char → List Char
  | 0, l => l
  | _ + 1, [] => []
  | fuel + 1, c :: rest =>
    if c = op then
      match findCloseIdx cl rest with
      | some i => removeDelimAux op cl fuel (rest.drop (i + 1))
      | none => c :: removeDelimAux op cl fuel rest
    else c :: removeDelimAux op cl fuel rest

/-- One `re.sub(r'open .*? close', '', s)` pass: each leftmost, shortest
delimited group is deleted; an unclosed opener is kept. -/
def removeDelim (op cl : Char) (l : List Char) : List Char :=
  removeDelimAux op cl l.length l

/-- Regex `\w` (ASCII): letters, digits, underscore. -/
def isWordChar (c : Char) : Bool := c.isAlphanum || c = '_'

/-- Scanner for `removeAtWord`, structurally recursive on a fuel bound. -/
def removeAtWordAux : ℕ → List Char → List Char
  | 0, l => l
  | _ + 1, [] => []
  | fuel + 1, c :: t =>
    if c = '@' then
      let run := t.takeWhile isWordChar
      if run.length = 0 then c :: removeAtWordAux fuel t
      else removeAtWordAux fuel (t.drop run.length)
    else c :: removeAtWordAux fuel t

/-- `re.sub(r'@\w+', '', s)`: delete each `@` followed by at least one word
character, together with that run. -/
def removeAtWord (l : List Char) : List Char := removeAtWordAux l.length l

/-- The alternation of
`\b(1080p|720p|480p|x264|x265|h264|h265|hevc|web-dl|webrip|bluray|hdrip|bdrip)\b`,
in source order. -/
def tokenStrs : List String :=
  ["1080p", "720p", "480p", "x264", "x265", "h264", "h265", "hevc",
   "web-dl", "webrip", "bluray", "hdrip", "bdrip"]

/-- Word boundary `\b` before a token that starts with a word character:
start of string, or a non-word character just before. -/
def boundaryBefore : Option Char → Bool
  | none => true
  | some c => !isWordChar c

/-- Word boundary `\b` after a token that ends with a word character:
end of string, or a non-word character next. -/
def boundaryAfterOk : List Char → Bool
  | [] => true
  | c :: _ => !isWordChar c

/-- Try the token alternatives at the head of `s`; on a match return the last
matched source character (for the scanner's boundary state) and the match
length. -/
def firstTokenMatch : List String → List Char → Option (Char × ℕ)
  | [], _ => none
  | tok :: more, s =>
    let tl := tok.toList
    if ciStartsWith tl s && boundaryAfterOk (s.drop tl.length) then
      some ((s.take tl.length).getLastD ' ', tl.length)
    else firstTokenMatch more s

/-- Scanner for `removeTokens`, structurally recursive on a fuel bound. -/
def removeTokensAux : ℕ → Option Char → List Char → List Char
  | 0, _, l => l
  | _ + 1, _, [] => []
  | fuel + 1, prev, c :: t =>
    match
      (if boundaryBefore prev then firstTokenMatch tokenStrs (c :: t) else none) with
    | some (lc, len) => removeTokensAux fuel (some lc) (t.drop (len - 1))
    | none => c :: removeTokensAux fuel (some c) t

/-- `re.sub` of the quality/codec token alternation: scan left to right over
the original string, deleting each boundary-delimited token occurrence. -/
def removeTokens (prev : Option Char) (l : List Char) : List Char :=
  removeTokensAux l.length prev l

/-- Existence scan for `re.search` of a boundary-delimited token alternation. -/
def hasTokenAux (toks : List String) (prev : Option Char) : List Char → Bool
  | [] => false
  | c :: t =>
    (boundaryBefore prev && (firstTokenMatch toks (c :: t)).isSome)
      || hasTokenAux toks (some c) t

/-- `re.search(r'\b(bluray|blu-ray|bdrip)\b', original_filename, IGNORECASE)`
used for the source tag (utils.py line 96). -/
def hasBlurayTag (s : String) : Bool :=
  hasTokenAux ["bluray", "blu-ray", "bdrip"] none s.toList

/-! The season/episode pattern
`(S|Season)\s*(\d{1,2})\s*(E|Episode)\s*(\d{1,2})` with `re.IGNORECASE`,
including its backtracking order: alternative `S` before `Season`, `E`
before `Episode`, and greedy `\d{1,2}` (two digits before one). -/

/-- Value of a digit run. -/
def digitsToNat (ds : List Char) : ℕ := ds.foldl (fun a c => a * 10 + digitVal c) 0

/-- Take exactly `k` digits from the head, returning their value and the rest. -/
def takeDigits (k : ℕ) (s : List Char) : Option (ℕ × List Char) :=
  let ds := s.take k
  if ds.length = k && ds.all Char.isDigit then some (digitsToNat ds, s.drop k)
  else none

/-- After the `E`/`Episode` alternative: `\s*(\d{1,2})`, greedy.
Returns (consumed length, episode value). -/
def afterEAlt (s : List Char) : Option (ℕ × ℕ) :=
  let ws3 := (s.takeWhile isSpaceCh).length
  let s5 := s.drop ws3
  ((takeDigits 2 s5).map (fun p => (ws3 + 2, p.1)))
    <|> ((takeDigits 1 s5).map (fun p => (ws3 + 1, p.1)))

/-- One attempt with a fixed first-digit-run length `k`:
`\s*` was already consumed by the caller (length `ws1`). -/
def tryWithD1 (k ws1 : ℕ) (s1 : List Char) : Option (ℕ × ℕ × ℕ) := do
  let (sv, s2) ← takeDigits k s1
  let ws2 := (s2.takeWhile isSpaceCh).length
  let s3 := s2.drop ws2
  let attempt1 : Option (ℕ × ℕ) :=
    match s3 with
    | c :: t => if ciCharEq c 'E' then (afterEAlt t).map (fun p => (1 + p.1, p.2)) else none
    | [] => none
  let attempt2 : Option (ℕ × ℕ) :=
    if ciStartsWith ("episode".toList) s3 then
      (afterEAlt (s3.drop 7)).map (fun p => (7 + p.1, p.2))
    else none
  match attempt1 <|> attempt2 with
  | some (elen, ev) => some (ws1 + k + ws2 + elen, sv, ev)
  | none => none

/-- After the `S`/`Season` alternative: `\s*(\d{1,2})\s*(E|Episode)\s*(\d{1,2})`.
Returns (consumed length, season value, episode value). -/
def matchSETail (s : List Char) : Option (ℕ × ℕ × ℕ) :=
  let ws1 := (s.takeWhile isSpaceCh).length
  let s1 := s.drop ws1
  tryWithD1 2 ws1 s1 <|> tryWithD1 1 ws1 s1

/-- Match the full season/episode pattern anchored at the head of `s`.
Returns (match length, season value, episode value). -/
def matchSEAt (s : List Char) : Option (ℕ × ℕ × ℕ) :=
  match s with
  | [] => none
  | c :: t =>
    let alt1 :=
      if ciCharEq c 'S' then (matchSETail t).map (fun p => (1 + p.1, p.2)) else none
    let alt2 :=
      if ciStartsWith ("season".toList) (c :: t) then
        (matchSETail ((c :: t).drop 6)).map (fun p => (6 + p.1, p.2))
      else none
    alt1 <|> alt2

/-- `re.search`: season and episode values of the leftmost match, if any. -/
def searchSE : List Char → Option (ℕ × ℕ)
  | [] => none
  | c :: t =>
    match matchSEAt (c :: t) with
    | some (_, sv, ev) => some (sv, ev)
    | none => searchSE t

/-- Scanner for `removeSE`, structurally recursive on a fuel bound. -/
def removeSEAux : ℕ → List Char → List Char
  | 0, l => l
  | _ + 1, [] => []
  | fuel + 1, c :: t =>
    match matchSEAt (c :: t) with
    | some (len, _, _) => removeSEAux fuel (t.drop (len - 1))
    | none => c :: removeSEAux fuel t

/-- `re.sub` of the season/episode pattern: delete every (non-overlapping,
leftmost) match. -/
def removeSE (l : List Char) : List Char := removeSEAux l.length l

/-- Lines 75-81: extract `SxxEyy` (zero-padded) from the leftmost match and
delete all matches; no match leaves the string unchanged with an empty tag. -/
def seasonEpisodeExtract (s : List Char) : String × List Char :=
  match searchSE s with
  | some (sv, ev) => ("S" ++ pad2 sv ++ "E" ++ pad2 ev, removeSE s)
  | none => ("", s)

/-- Separator class of `re.sub(r'[\._\-\s]+', '.', ...)`. -/
def isSepCh (c : Char) : Bool := c = '.' || c = '_' || c = '-' || isSpaceCh c

/-- Scanner for `collapseSeps`, structurally recursive on a fuel bound. -/
def collapseSepsAux : ℕ → List Char → List Char
  | 0, l => l
  | _ + 1, [] => []
  | fuel + 1, c :: t =>
    if isSepCh c then '.' :: collapseSepsAux fuel (t.dropWhile isSepCh)
    else c :: collapseSepsAux fuel t

/-- Collapse every run of separator characters into a single dot (line 83). -/
def collapseSeps (l : List Char) : List Char := collapseSepsAux l.length l

/-- Python `str.strip('.')`. -/
def stripDots (l : List Char) : List Char :=
  ((l.dropWhile (· = '.')).reverse.dropWhile (· = '.')).reverse

/-- Lines 68-73: the five `re.sub(pattern, '', ...)` passes, in source order:
`\[.*?\]`, `\(.*?\)`, `\{.*?\}` (braces), `@\w+`, then the quality/codec
token alternation. -/
def cleanUnwanted (s : String) : List Char :=
  let l1 := removeDelim '[' ']' s.toList
  let l2 := removeDelim '(' ')' l1
  let l3 := removeDelim (Char.ofNat 123) (Char.ofNat 125) l2
  let l4 := removeAtWord l3
  removeTokens none l4

/-- `video_info` dictionary returned by `get_video_info`
(src/worker/utils.py lines 48-54). -/
structure VideoInfo where
  height : ℤ
  duration : ℚ
  codec_name : String
  is_10bit : Bool
  audio_channels : ℤ
deriving DecidableEq

/-- Lines 85-107: the dynamic property tags, in order: quality, optional
`10bit`, source tag (BluRay from the original filename, else WEBRip),
optional channel count, codec tag. -/
def filenameProperties (quality original_filename : String) (video_info : VideoInfo) : List String :=
  [quality ++ "p"]
    ++ (if video_info.is_10bit then ["10bit"] else [])
    ++ (if hasBlurayTag original_filename then ["BluRay"] else ["WEBRip"])
    ++ (if 0 < video_info.audio_channels then [toString video_info.audio_channels ++ "CH"] else [])
    ++ ["x265.HEVC"]

/-- Python `".".join(parts)`. -/
def joinDot : List String → String
  | [] => ""
  | [s] => s
  | s :: rest => s ++ "." ++ joinDot rest

/-- `generate_standard_filename(original_filename, quality, brand, video_info)`
from src/worker/utils.py lines 61-115. -/
def generate_standard_filename
    (original_filename quality brand : String) (video_info : VideoInfo) : String :=
  let clean1 := cleanUnwanted (splitextRoot original_filename)
  let se_pair := seasonEpisodeExtract clean1
  let season_episode_str := se_pair.1
  let clean_name := String.mk (stripDots (collapseSeps se_pair.2))
  let final_parts := [clean_name, season_episode_str]
    ++ filenameProperties quality original_filename video_info
  let base_name := joinDot (final_parts.filter (fun p => p ≠ ""))
  base_name ++ "-[" ++ brand ++ "]" ++ ".mkv"

/-! ### Data model: user settings, intake job data, job-store records -/

/-- Settings dictionary returned by `get_user_settings`
(src/database.py lines 36-50): defaults are resolved at read time, so all
three keys are always present. -/
structure UserSettings where
  brand_name : String
  website : String
  custom_thumbnail_id : Option String
deriving DecidableEq

/-- The `job_data` dictionary assembled at intake
(src/bot/bot.py lines 253-261, plus `status_message_id` and `cpu_queue`
added in `confirm_filename_callback`, lines 288-289). -/
structure JobData where
  user_id : ℤ
  message_ids : List ℤ
  quality : String
  preset : String
  final_filename : String
  video_info : VideoInfo
  original_thumbnail_id : Option String
  user_settings : UserSettings
  status_message_id : ℤ
  cpu_queue : String
deriving DecidableEq

/-- A document of the `jobs` collection
(src/database.py lines 59-70: the fields set by `add_job`). -/
structure JobRecord where
  task_id : String
  user_id : ℤ
  filename : String
  status : String
  status_message_id : ℤ
  job_data : JobData
deriving DecidableEq

/-- The `jobs` collection, in Mongo natural order. -/
abbrev JobStore := List JobRecord

/-! ### Job store operations (src/database.py lines 59-83; src/bot/database.py
lines 68-113 is an identical second copy of the same functions) -/

/-- Mongo `update_one`: apply `f` to the first document matching `task_id`. -/
def updateOne (store : JobStore) (task_id : String) (f : JobRecord → JobRecord) : JobStore :=
  match store with
  | [] => []
  | r :: rs =>
    if r.task_id == task_id then f r :: rs else r :: updateOne rs task_id f

/-- `add_job(task_id, user_id, filename, status_message_id, job_data)`:
upsert that sets the five fields, with `status` always `"QUEUED"`. -/
def add_job (store : JobStore) (task_id : String) (user_id : ℤ) (filename : String)
    (status_message_id : ℤ) (job_data : JobData) : JobStore :=
  if store.any (fun r => r.task_id == task_id) then
    updateOne store task_id (fun r =>
      { r with
        user_id := user_id, filename := filename, status := "QUEUED",
        status_message_id := status_message_id, job_data := job_data })
  else
    store ++ [{ task_id := task_id, user_id := user_id, filename := filename,
                status := "QUEUED", status_message_id := status_message_id,
                job_data := job_data }]

/-- `get_job(task_id)`: `find_one` on the unique `task_id` index. -/
def get_job (store : JobStore) (task_id : String) : Option JobRecord :=
  store.find? (fun r => r.task_id == task_id)

/-- `update_job_status(task_id, status)`: a single unconditional
`$set` on `status` — the source takes no expected from-state. -/
def update_job_status (store : JobStore) (task_id : String) (status : String) : JobStore :=
  updateOne store task_id (fun r => { r with status := status })

/-- `remove_job(task_id)`: `delete_one` on the first matching document. -/
def remove_job (store : JobStore) (task_id : String) : JobStore :=
  match store with
  | [] => []
  | r :: rs => if r.task_id == task_id then rs else r :: remove_job rs task_id

/-- The terminal states excluded from the `/queue` view
(src/database.py line 82). -/
def final_states : List String := ["COMPLETED", "FAILED", "CANCELLED"]

/-- `get_user_jobs(user_id)`: all of the user's jobs whose status is not in
`final_states`. -/
def get_user_jobs (store : JobStore) (user_id : ℤ) : List JobRecord :=
  store.filter (fun r => r.user_id == user_id && !(final_states.contains r.status))

/-- Status of the stored job with the given id, if present. -/
def jobStatus (store : JobStore) (task_id : String) : Option String :=
  (get_job store task_id).map (fun r => r.status)

/-! ### Spec-side state machine (for comparing the store against §4.3) -/

/-- Modelled from the spec: the §4.3/§4.4 status state machine — `QUEUED →
DOWNLOADING → ANALYZING → ENCODING → UPLOADING → COMPLETED`, and any
non-terminal state may move to `FAILED` or `CANCELLED`; terminal states
(`COMPLETED`, `FAILED`, `CANCELLED`) move nowhere. -/
def specAllowedTransition (fromSt toSt : String) : Bool :=
  (fromSt == "QUEUED" && toSt == "DOWNLOADING")
  || (fromSt == "DOWNLOADING" && toSt == "ANALYZING")
  || (fromSt == "ANALYZING" && toSt == "ENCODING")
  || (fromSt == "ENCODING" && toSt == "UPLOADING")
  || (fromSt == "UPLOADING" && toSt == "COMPLETED")
  || (!(final_states.contains fromSt) && (toSt == "FAILED" || toSt == "CANCELLED"))

/-! ### Worker configuration and errors -/

/-- Module-level environment configuration of src/worker/tasks.py
(lines 30-34). -/
structure WorkerEnv where
  encode_preset : String
  encode_crf : String
  audio_bitrate : String
  default_brand : String
  default_website : String
deriving DecidableEq

/-- The defaults of the `os.getenv` calls on lines 30-34:
`ENCODE_PRESET` defaults to `"slow"`, `ENCODE_CRF` to `"24"`,
`AUDIO_BITRATE` to `"128k"`, `BRANDING_TEXT` to `"MyEnc"`,
`BRANDING_WEBSITE` to `"t.me/YourChannel"`. -/
def defaultWorkerEnv : WorkerEnv :=
  { encode_preset := "slow", encode_crf := "24", audio_bitrate := "128k",
    default_brand := "MyEnc", default_website := "t.me/YourChannel" }

/-- Python exceptions raised by the worker stages. -/
inductive PyErr where
  | valueError (msg : String)
  | indexError
  | typeError (msg : String)
deriving DecidableEq

/-! ### I/O stage: `_run_download_and_prep` (src/worker/tasks.py lines 58-130) -/

/-- Metadata of one fetched source message: the `video or document`
attachment's optional `file_name`, its `file_size`, and the video thumb id
when the message is a video with a thumbnail. -/
structure MsgMeta where
  file_name : Option String
  file_size : ℤ
  video_thumb_id : Option String
deriving DecidableEq

/-- The dictionary returned by `_run_download_and_prep`
(src/worker/tasks.py lines 119-125). It carries no `preset`: the
download task's signature (line 50) does not accept one. -/
structure PrepData where
  user_id : ℤ
  status_message_id : ℤ
  input_path : String
  job_cache_dir : String
  original_filename : String
  quality : String
  thumb_path : Option String
  video_info : VideoInfo
  user_settings : UserSettings
deriving DecidableEq

/-- `DOWNLOAD_CACHE_DIR` (line 26) joined with the task id (line 65). -/
def jobCacheDir (task_id : String) : String := "/tmp/iencode_downloads/" ++ task_id

/-- `merged_input_path` (line 67). -/
def mergedInputPath (task_id : String) : String := jobCacheDir task_id ++ "/merged_input.mkv"

/-- Everything the I/O stage reads from the outside world: the fetched
messages, the bytes the attachment streams yield, whatever
`merged_input.mkv` already contains in the workspace, and the probe
result of `get_video_info` on the downloaded artifact. -/
structure IoInput where
  task_id : String
  user_id : ℤ
  status_message_id : ℤ
  messages : List MsgMeta
  chunks : List (List ℕ)
  preexisting_merged : Option (List ℕ)
  probe : Option VideoInfo
  quality : String
  user_settings : UserSettings
deriving DecidableEq

/-- Filesystem state of the per-job workspace after the stage exits. -/
structure IoFsState where
  workspace_exists : Bool
  merged : Option (List ℕ)
  thumb : Option String
deriving DecidableEq

/-- `_run_download_and_prep` (lines 58-130), as state passing.

Control flow of the source: `os.makedirs` creates the workspace (line 66);
`messages[0]` raises `IndexError` on an empty id list (line 73);
a zero total size raises `ValueError` (line 82); the download always runs —
`open(merged_input_path, "wb")` (line 86) truncates any pre-existing file
and the streamed chunks are appended, there is no resume check; the
optional thumbnail is downloaded (lines 109-114); a failed probe raises
`ValueError` (line 117); otherwise the prep dictionary is returned.
Neither the `except` block (edit + re-raise) nor the `finally` block
(`app.stop()`) touches the workspace, so every exit leaves it in place. -/
def runIoStage (inp : IoInput) : Except PyErr PrepData × IoFsState :=
  let fs0 : IoFsState :=
    { workspace_exists := true, merged := inp.preexisting_merged, thumb := none }
  match inp.messages with
  | [] => (Except.error PyErr.indexError, fs0)
  | first :: _ =>
    let original_filename := first.file_name.getD "unknown_file.tmp"
    let fresh_thumbnail_id := first.video_thumb_id
    let total_size := (inp.messages.map (fun m => m.file_size)).sum
    if total_size = 0 then
      (Except.error (PyErr.valueError "File size is 0 B."), fs0)
    else
      let fs1 := { fs0 with merged := some inp.chunks.flatten }
      let final_thumbnail_id :=
        inp.user_settings.custom_thumbnail_id.orElse (fun _ => fresh_thumbnail_id)
      let thumb_path := final_thumbnail_id.map (fun _ => jobCacheDir inp.task_id ++ "/thumb.jpg")
      let fs2 := { fs1 with thumb := thumb_path }
      match inp.probe with
      | none =>
        (Except.error (PyErr.valueError "Could not get video info from the downloaded file."),
         fs2)
      | some vi =>
        (Except.ok
          { user_id := inp.user_id, status_message_id := inp.status_message_id,
            input_path := mergedInputPath inp.task_id,
            job_cache_dir := jobCacheDir inp.task_id,
            original_filename := original_filename, quality := inp.quality,
            thumb_path := thumb_path, video_info := vi,
            user_settings := inp.user_settings }, fs2)

/-! ### CPU stage: `_run_encode_and_upload` (src/worker/tasks.py lines 141-239) -/

/-- Lines 164-166: `target_quality = int(prep_data["quality"])`, then
`if original_height > 0 and target_quality > original_height:
target_quality = original_height`. -/
def targetQuality (quality original_height : ℤ) : ℤ :=
  if 0 < original_height ∧ original_height < quality then original_height else quality

/-- Lines 171-179: the constructed ffmpeg invocation, element for element. -/
def ffmpeg_command (input_path encode_preset encode_crf : String) (target_quality : ℤ)
    (audio_bitrate brand_name website output_path : String) : List String :=
  ["ffmpeg", "-i", input_path,
   "-c:v", "libx265", "-preset", encode_preset, "-crf", encode_crf,
   "-vf", "scale=-2:" ++ toString target_quality,
   "-c:a", "aac", "-b:a", audio_bitrate,
   "-metadata", "encoder=" ++ brand_name,
   "-metadata", "comment=Encoded by " ++ brand_name ++ " | Join us: " ++ website,
   "-y", "-progress", "pipe:1", "-nostats", output_path]

/-- The output filename computed on line 168. The source call
`generate_standard_filename(prep_data["original_filename"], str(target_quality),
brand_name)` passes three arguments to the four-parameter function of
src/worker/utils.py (a `TypeError` at runtime, recorded in `runCpuStage`);
this definition supplies the stage's probed `video_info` — the argument the
matching intake-side call on src/bot/bot.py lines 149-154 passes — to express
the evident data flow. The quality tag is `str(target_quality)`: the clamped
value, not the requested one. -/
def encodeOutputFilename (prep : PrepData) (tq : ℤ) : String :=
  generate_standard_filename prep.original_filename (toString tq)
    prep.user_settings.brand_name prep.video_info

/-- The full ffmpeg command the CPU stage assembles for a prep payload
(lines 153-179): brand and website come from the settings snapshot, preset,
CRF and audio bitrate from the module environment, the target height from
`targetQuality`, and the output path from the generated filename. Returns
`none` when `int(prep_data["quality"])` would raise. -/
def encodeCommandOf (env : WorkerEnv) (prep : PrepData) : Option (List String) :=
  match pyInt prep.quality with
  | none => none
  | some q =>
    let tq := targetQuality q prep.video_info.height
    let output_filename := encodeOutputFilename prep tq
    some (ffmpeg_command prep.input_path env.encode_preset env.encode_crf tq
      env.audio_bitrate prep.user_settings.brand_name prep.user_settings.website
      (prep.job_cache_dir ++ "/" ++ output_filename))

/-- `_run_encode_and_upload` (lines 141-239) as exit-path model: result and
whether the workspace still exists afterwards.

The guard chain of the source: duration ≤ 0 raises `ValueError` (line 160),
height ≤ 0 raises `ValueError` (line 162); otherwise line 168 calls
`generate_standard_filename` with three of its four required arguments and
raises `TypeError`, so the ffmpeg launch below it is unreachable. Whatever
the exit, the `finally` block (lines 236-239) removes the workspace
directory when it exists, so the second component is always `false`. -/
def runCpuStage (_env : WorkerEnv) (prep : PrepData) : Except PyErr Unit × Bool :=
  let r : Except PyErr Unit :=
    if prep.video_info.duration ≤ 0 then
      Except.error (PyErr.valueError
        "Video duration is invalid or zero. The file may be corrupt.")
    else if prep.video_info.height ≤ 0 then
      Except.error (PyErr.valueError
        "Could not determine video height. The file may be corrupt or not a video.")
    else
      Except.error (PyErr.typeError
        "generate_standard_filename missing 1 required positional argument: video_info")
  (r, false)

/-! ### Progress-stream parsing (src/worker/tasks.py lines 183-206) -/

/-- Lines 186-194: strip the decoded line; if it mentions `out_time_ms`,
take `line.split("=")[1]` and parse it with `int`; a missing index
(`IndexError`) or a bad literal (`ValueError`) means the line is skipped. -/
def parseOutTimeLine (raw : String) : Option ℤ :=
  let line := trimL raw.toList
  if containsL ("out_time_ms".toList) line then
    match (splitEqAux line []).get? 1 with
    | some ts => pyIntL ts
    | none => none
  else none

/-- Line 191: `current_time_sec = int(time_str) / 1_000_000` — the parsed
microsecond value converted to seconds. -/
def progressSeconds (raw : String) : Option ℚ :=
  (parseOutTimeLine raw).map (fun v => (v : ℚ) / 1000000)

/-- Observable actions of the worker loops. -/
inductive WorkerAction where
  | editAttempt
  | sleepFor (seconds : ℕ)
  | jobStoreWrite (task_id status : String)
deriving DecidableEq

/-- One loop body for a progress line (lines 187-205): an unparsable line
emits nothing and raises nothing; a parsed value emits a status edit only
when the 5-second throttle window is open. -/
def handleProgressLine (throttleOpen : Bool) (raw : String) : List WorkerAction :=
  match parseOutTimeLine raw with
  | none => []
  | some _ => if throttleOpen then [WorkerAction.editAttempt] else []

/-! ### Status-edit rate limiting (src/worker/tasks.py lines 102-105 and
202-205: `try: edit_text(...) except FloodWait as e: sleep(e.value)`) -/

/-- Outcome of one `edit_text` call: success, or a `FloodWait` carrying the
platform's hinted interval. -/
inductive EditOutcome where
  | ok
  | floodWait (seconds : ℕ)
deriving DecidableEq

/-- The source's flood-wait handling: the edit is attempted once; if it
raises `FloodWait e`, the worker sleeps `e.value` seconds and the loop
simply continues — there is no second `edit_text` call. -/
def throttledEditActions : EditOutcome → List WorkerAction
  | EditOutcome.ok => [WorkerAction.editAttempt]
  | EditOutcome.floodWait n => [WorkerAction.editAttempt, WorkerAction.sleepFor n]

/-! ### Store-level pipeline model

`worker/tasks.py` imports no database module and performs no job-store
operation in either stage; the only job-store writes in the repository are
`add_job` at intake (src/bot/bot.py lines 161, 292, 339) and
`update_job_status(..., "CANCELLED")` in the cancellation handlers
(lines 355, 377). -/

/-- Stage outcome, as decided by the environment (download success,
subprocess exit code, upload success). -/
inductive StageOutcome where
  | success
  | failure
deriving DecidableEq

/-- Job-store status writes performed by `download_task` /
`_run_download_and_prep`: none, on any outcome. -/
def ioStageStatusWrites : StageOutcome → List (String × String) := fun _ => []

/-- Job-store status writes performed by `encode_task` /
`_run_encode_and_upload`: none, on any outcome. -/
def cpuStageStatusWrites : StageOutcome → List (String × String) := fun _ => []

/-- Apply a list of `(task_id, status)` writes with `update_job_status`. -/
def applyStatusWrites (store : JobStore) (ws : List (String × String)) : JobStore :=
  ws.foldl (fun st p => update_job_status st p.1 p.2) store

/-- The job store across one full pipeline run: `add_job` at submission
(status `"QUEUED"`), then every status write of the I/O stage and of the
CPU stage for the given outcomes. -/
def runPipelineStore (o₁ o₂ : StageOutcome) (store : JobStore) (task_id : String)
    (user_id : ℤ) (filename : String) (status_message_id : ℤ) (job_data : JobData) : JobStore :=
  applyStatusWrites
    (applyStatusWrites (add_job store task_id user_id filename status_message_id job_data)
      (ioStageStatusWrites o₁))
    (cpuStageStatusWrites o₂)

/-! ### Shared example data -/

/-- A probe result for a 540-line, 60-second, two-channel 8-bit source. -/
def exampleVideoInfo : VideoInfo :=
  { height := 540, duration := 60, codec_name := "h264", is_10bit := false,
    audio_channels := 2 }

/-- A settings snapshot with the environment defaults. -/
def exampleSettings : UserSettings :=
  { brand_name := "MyEnc", website := "t.me/YourChannel", custom_thumbnail_id := none }

/-- An intake `job_data` for a 1080p/fast request on the 540p source. -/
def exampleJobData : JobData :=
  { user_id := 7, message_ids := [1001], quality := "1080", preset := "fast",
    final_filename := "Video.1080p.WEBRip.2CH.x265.HEVC-[MyEnc].mkv",
    video_info := exampleVideoInfo, original_thumbnail_id := none,
    user_settings := exampleSettings, status_message_id := 100,
    cpu_queue := "default" }

/-- The prep payload `_run_download_and_prep` hands the CPU stage for that
job: same user, quality and settings snapshot — and no preset field. -/
def examplePrep : PrepData :=
  { user_id := 7, status_message_id := 100, input_path := mergedInputPath "t1",
    job_cache_dir := jobCacheDir "t1", original_filename := "video.mkv",
    quality := "1080", thumb_path := none, video_info := exampleVideoInfo,
    user_settings := exampleSettings }

/-- A store holding one job that cancellation already moved to `CANCELLED`. -/
def exampleCancelledRec : JobRecord :=
  { task_id := "t1", user_id := 7, filename := "video.mkv", status := "CANCELLED",
    status_message_id := 100, job_data := exampleJobData }

/-- The singleton store around `exampleCancelledRec`. -/
def exampleCancelledStore : JobStore := [exampleCancelledRec]

/-! ### Store lemmas -/

/-- `updateOne` under a field update that keeps `task_id` commutes with
`get_job`. -/
theorem get_job_updateOne (store : JobStore) (tid : String) (f : JobRecord → JobRecord)
    (hf : ∀ r, (f r).task_id = r.task_id) :
    get_job (updateOne store tid f) tid = (get_job store tid).map f := by
  induction store with
  | nil => rfl
  | cons r rs ih =>
    by_cases hb : r.task_id = tid
    · simp [updateOne, get_job, List.find?, hb, hf]
    · simp only [updateOne, get_job, List.find?] at ih ⊢
      have hb' : (r.task_id == tid) = false := by simp [hb]
      have hbf : ((f r).task_id == tid) = false := by simp [hf, hb]
      simp [hb', hbf, ih]

/-- A list with no match for `p` contributes nothing to `find?` over an
append. -/
theorem find?_append_of_all_neg (p : JobRecord → Bool) :
    ∀ l₁ l₂ : JobStore, l₁.all (fun r => !(p r)) = true →
      (l₁ ++ l₂).find? p = l₂.find? p
  | [], _, _ => rfl
  | r :: rs, l₂, h => by
    simp only [List.all_cons, Bool.and_eq_true, Bool.not_eq_true'] at h
    simp only [List.cons_append, List.find?, h.1]
    exact find?_append_of_all_neg p rs l₂ h.2

/-- After `add_job`, the stored record under `task_id` is queued, owned by
the given user, and visible in the user's active-queue view. -/
theorem add_job_status_queued (store : JobStore) (tid : String) (uid : ℤ)
    (fn : String) (smid : ℤ) (jd : JobData) :
    jobStatus (add_job store tid uid fn smid jd) tid = some "QUEUED"
    ∧ (get_user_jobs (add_job store tid uid fn smid jd) uid).any
        (fun r => r.task_id == tid) = true := by
  have main : ∃ r', get_job (add_job store tid uid fn smid jd) tid = some r'
      ∧ r'.status = "QUEUED" ∧ r'.user_id = uid := by
    unfold add_job
    by_cases hb : store.any (fun r => r.task_id == tid) = true
    · rw [if_pos hb]
      rcases hfs : get_job store tid with _ | r'
      · obtain ⟨r, hmem, hr⟩ := List.any_eq_true.mp hb
        exact absurd hr (by simpa using List.find?_eq_none.mp hfs r hmem)
      · have hupd := get_job_updateOne store tid (fun r => { r with user_id := uid, filename := fn, status := "QUEUED", status_message_id := smid, job_data := jd }) (fun _ => rfl)
        rw [hupd, hfs]
        exact ⟨_, rfl, rfl, rfl⟩
    · rw [if_neg hb]
      have hall : store.all (fun r => !(r.task_id == tid)) = true := by
        refine List.all_eq_true.mpr ?_
        intro r hmem
        rcases hx : (r.task_id == tid) with _ | _
        · simp [hx]
        · exact absurd (List.any_eq_true.mpr ⟨r, hmem, hx⟩) hb
      refine ⟨{ task_id := tid, user_id := uid, filename := fn, status := "QUEUED",
                status_message_id := smid, job_data := jd }, ?_, rfl, rfl⟩
      unfold get_job
      rw [find?_append_of_all_neg _ store _ hall]
      simp [List.find?]
  obtain ⟨r', hget, hst, huid⟩ := main
  have hget' : (add_job store tid uid fn smid jd).find? (fun rr => rr.task_id == tid)
      = some r' := hget
  have htid : (r'.task_id == tid) = true := by simpa using List.find?_some hget'
  have hmem : r' ∈ add_job store tid uid fn smid jd := List.mem_of_find?_eq_some hget'
  constructor
  · simp [jobStatus, hget, hst]
  · refine List.any_eq_true.mpr ⟨r', ?_, htid⟩
    refine List.mem_filter.mpr ⟨hmem, ?_⟩
    simp [huid, hst, final_states]

/-! ### Claim C1 -/

/-- C1 counterexample: a job whose I/O and CPU stages both succeed ends the
run with stored status `"QUEUED"`, not `"COMPLETED"`, and still appears in
the user's active-queue listing. -/
theorem c1_counterexample :
    jobStatus (runPipelineStore StageOutcome.success StageOutcome.success []
        ("t1") 7 ("video.mkv") 100 exampleJobData) ("t1") = some "QUEUED"
    ∧ jobStatus (runPipelineStore StageOutcome.success StageOutcome.success []
        ("t1") 7 ("video.mkv") 100 exampleJobData) ("t1") ≠ some "COMPLETED"
    ∧ (get_user_jobs (runPipelineStore StageOutcome.success StageOutcome.success []
        ("t1") 7 ("video.mkv") 100 exampleJobData) 7).any
        (fun r => r.task_id == "t1") = true := by decide

/-- C1 (amended): the worker stages perform no job-store writes at all, so
whatever the stage outcomes, a submitted job's stored status is still
`"QUEUED"` after the full pipeline run and the job remains in the user's
active-queue listing; it never becomes `"COMPLETED"` in the store. -/
theorem c1_worker_never_updates_status (o₁ o₂ : StageOutcome) (store : JobStore)
    (tid : String) (uid : ℤ) (fn : String) (smid : ℤ) (jd : JobData) :
    ioStageStatusWrites o₁ = []
    ∧ cpuStageStatusWrites o₂ = []
    ∧ jobStatus (runPipelineStore o₁ o₂ store tid uid fn smid jd) tid = some "QUEUED"
    ∧ (get_user_jobs (runPipelineStore o₁ o₂ store tid uid fn smid jd) uid).any
        (fun r => r.task_id == tid) = true := by
  have hrun : runPipelineStore o₁ o₂ store tid uid fn smid jd
      = add_job store tid uid fn smid jd := rfl
  rw [hrun]
  exact ⟨rfl, rfl, (add_job_status_queued store tid uid fn smid jd).1,
    (add_job_status_queued store tid uid fn smid jd).2⟩

/-! ### Claim C2 -/

/-- C2 counterexample: `CANCELLED → DOWNLOADING` is disallowed by the §4.3
state machine, yet `update_job_status` applies it — the stored status
changes instead of the request being rejected. -/
theorem c2_counterexample :
    specAllowedTransition ("CANCELLED") ("DOWNLOADING") = false
    ∧ jobStatus (update_job_status exampleCancelledStore ("t1") ("DOWNLOADING")) ("t1")
        = some "DOWNLOADING"
    ∧ jobStatus (update_job_status exampleCancelledStore ("t1") ("DOWNLOADING")) ("t1")
        ≠ jobStatus exampleCancelledStore ("t1") := by decide

/-- C2 (amended): `update_job_status` is an unconditional overwrite with no
from-state check: even for a transition the §4.3 state machine disallows,
the stored status of the matching job becomes the requested value. -/
theorem c2_update_status_unconditional (store : JobStore) (tid newSt : String)
    (r : JobRecord) (hget : get_job store tid = some r)
    (_hdis : specAllowedTransition r.status newSt = false) :
    get_job (update_job_status store tid newSt) tid = some { r with status := newSt } := by
  unfold update_job_status
  rw [get_job_updateOne store tid (fun r => { r with status := newSt }) (fun _ => rfl), hget]
  rfl

/-- C2 witness: the amended theorem applied to the cancelled example job and
the disallowed `CANCELLED → DOWNLOADING` request. -/
theorem c2_witness :
    get_job (update_job_status exampleCancelledStore ("t1") ("DOWNLOADING")) ("t1")
      = some { exampleCancelledRec with status := "DOWNLOADING" } :=
  c2_update_status_unconditional exampleCancelledStore "t1" "DOWNLOADING"
    exampleCancelledRec rfl (by decide)

/-! ### Claim C3 -/

/-- The clamp of lines 164-166 computes the minimum whenever the probed
height is positive. -/
theorem targetQuality_eq_min (q h : ℤ) (hh : 0 < h) : targetQuality q h = min q h := by
  unfold targetQuality
  split <;> omega

/-- C3: for a positive probed source height and a requested quality in
480/720/1080, the height spliced into the `-vf scale=-2:<height>` argument
of the constructed encoder command equals `min(quality, height)` and never
exceeds the source height. -/
theorem c3_no_upscale (q h : ℤ) (hh : 0 < h)
    (_hq : q = 480 ∨ q = 720 ∨ q = 1080) :
    targetQuality q h = min q h ∧ targetQuality q h ≤ h ∧
    ∀ ip ps crf ab bn ws op,
      (ffmpeg_command ip ps crf (targetQuality q h) ab bn ws op).get? 10
        = some ("scale=-2:" ++ toString (min q h)) := by
  have hm := targetQuality_eq_min q h hh
  refine ⟨hm, by omega, ?_⟩
  intro ip ps crf ab bn ws op
  rw [hm]
  simp [ffmpeg_command]

/-- C3 witness: a 1080p request on a 540p source yields the scale argument
`scale=-2:540` in the concrete command. -/
theorem c3_witness :
    (ffmpeg_command ("/tmp/iencode_downloads/t1/merged_input.mkv") ("slow") ("24")
        (targetQuality 1080 540) ("128k") ("MyEnc") ("t.me/YourChannel")
        ("/tmp/out.mkv")).get? 10
      = some ("scale=-2:" ++ toString (min 1080 540 : ℤ)) :=
  (c3_no_upscale 1080 540 (by norm_num) (Or.inr (Or.inr rfl))).2.2
    "/tmp/iencode_downloads/t1/merged_input.mkv" "slow" "24" "128k" "MyEnc"
    "t.me/YourChannel" "/tmp/out.mkv"

/-! ### Claim C7 -/

/-- C7 counterexample: the example job selected preset `fast`, yet the
command the CPU worker builds for its prep payload carries
`-preset slow` (the `ENCODE_PRESET` environment default) and the string
`fast` appears nowhere in it — the prep payload cannot even transport a
preset, because `download_task` accepts none and returns none. -/
theorem c7_counterexample :
    exampleJobData.preset = "fast"
    ∧ examplePrep.quality = exampleJobData.quality
    ∧ examplePrep.user_id = exampleJobData.user_id
    ∧ examplePrep.user_settings = exampleJobData.user_settings
    ∧ examplePrep.video_info = exampleJobData.video_info
    ∧ ((encodeCommandOf defaultWorkerEnv examplePrep).getD []).get? 5 = some "-preset"
    ∧ ((encodeCommandOf defaultWorkerEnv examplePrep).getD []).get? 6 = some "slow"
    ∧ ("fast" ∉ (encodeCommandOf defaultWorkerEnv examplePrep).getD []) := by
  refine ⟨rfl, rfl, rfl, rfl, rfl, ?_, ?_, ?_⟩ <;> decide

/-- C7 (amended): the `-preset` argument of the constructed encoder command
always equals the worker's `ENCODE_PRESET` environment value; the
user-selected `JobData.preset` is never forwarded to the worker, so it
cannot influence the command. -/
theorem c7_preset_from_env (env : WorkerEnv) (prep : PrepData) (cmd : List String)
    (h : encodeCommandOf env prep = some cmd) :
    cmd.get? 5 = some "-preset" ∧ cmd.get? 6 = some env.encode_preset := by
  unfold encodeCommandOf at h
  rcases hq : pyInt prep.quality with _ | q
  · rw [hq] at h; cases h
  · rw [hq] at h
    cases h
    exact ⟨rfl, rfl⟩

/-- C7 witness: the amended theorem applied to the default environment and
the example prep payload. -/
theorem c7_witness :
    ((encodeCommandOf defaultWorkerEnv examplePrep).getD []).get? 5 = some "-preset"
    ∧ ((encodeCommandOf defaultWorkerEnv examplePrep).getD []).get? 6 = some "slow" :=
  c7_preset_from_env defaultWorkerEnv examplePrep
    ((encodeCommandOf defaultWorkerEnv examplePrep).getD []) (by decide)

/-! ### Claim C8 -/

/-- C8: a progress line whose `out_time_ms` value does not parse as an
integer is ignored — it produces no seconds value and emits no status
edit — and a line that does parse yields exactly the parsed microsecond
value divided by 1,000,000. -/
theorem c8_progress_parsing :
    (∀ raw : String, parseOutTimeLine raw = none →
        progressSeconds raw = none ∧ ∀ t, handleProgressLine t raw = [])
    ∧ (∀ (raw : String) (v : ℤ), parseOutTimeLine raw = some v →
        progressSeconds raw = some ((v : ℚ) / 1000000)) := by
  constructor
  · intro raw hnone
    exact ⟨by simp [progressSeconds, hnone], fun t => by simp [handleProgressLine, hnone]⟩
  · intro raw v hsome
    simp [progressSeconds, hsome]

/-- C8 witness: `out_time_ms=N/A` is ignored, and `out_time_ms=1500000`
yields 1500000 / 1000000 seconds. -/
theorem c8_witness :
    progressSeconds ("out_time_ms=N/A") = none
    ∧ progressSeconds ("out_time_ms=1500000") = some ((1500000 : ℚ) / 1000000) :=
  ⟨(c8_progress_parsing.1 ("out_time_ms=N/A") (by decide)).1,
   c8_progress_parsing.2 ("out_time_ms=1500000") 1500000 (by decide)⟩

/-! ### Claim C9 -/

/-- Is an action a job-store write? -/
def isJobStoreWrite : WorkerAction → Bool
  | WorkerAction.jobStoreWrite _ _ => true
  | _ => false

/-- C9 counterexample: on a rate-limit hint of 30 seconds the worker's
action trace is exactly one edit attempt followed by the sleep — the trace
ends with the sleep, so the edit is never retried. -/
theorem c9_counterexample :
    throttledEditActions (EditOutcome.floodWait 30)
      = [WorkerAction.editAttempt, WorkerAction.sleepFor 30]
    ∧ (throttledEditActions (EditOutcome.floodWait 30)).getLast?
        = some (WorkerAction.sleepFor 30)
    ∧ (throttledEditActions (EditOutcome.floodWait 30)).count WorkerAction.editAttempt
        = 1 := by decide

/-- C9 (amended): on every rate-limit hint the worker sleeps exactly the
hinted interval and then simply continues — the trace holds a single edit
attempt with the sleep last, and no outcome of the edit ever touches the
job store. -/
theorem c9_floodwait_sleep_no_retry (n : ℕ) :
    throttledEditActions (EditOutcome.floodWait n)
      = [WorkerAction.editAttempt, WorkerAction.sleepFor n]
    ∧ (throttledEditActions (EditOutcome.floodWait n)).count WorkerAction.editAttempt = 1
    ∧ (throttledEditActions (EditOutcome.ok)).filter isJobStoreWrite = []
    ∧ (throttledEditActions (EditOutcome.floodWait n)).filter isJobStoreWrite = [] := by
  refine ⟨rfl, ?_, rfl, rfl⟩
  simp [throttledEditActions, List.count_cons]

/-! ### Claim C10 -/

/-- C10: `create_progress_bar` is total and never divides by zero — at
`total = 0` it returns the fixed all-empty 20-cell bar labelled `0.00%`,
and for `0 ≤ current ≤ total` it returns a bar of exactly 20 cells whose
percentage value equals `current * 100 / total`. -/
theorem c10_progress_bar (current total : ℚ) :
    (total = 0 →
      create_progress_bar current total 20 = "[░░░░░░░░░░░░░░░░░░░░] 0.00%")
    ∧ (0 < total → 0 ≤ current → current ≤ total →
        (progressCells current total 20).length = 20
        ∧ progressPercent current total = current * 100 / total
        ∧ create_progress_bar current total 20
            = "[" ++ String.mk (progressCells current total 20) ++ "] "
              ++ formatFixed2 (progressPercent current total) ++ "%") := by
  constructor
  · intro h0
    subst h0
    unfold create_progress_bar
    rw [if_pos (show (0 : ℚ) = 0 from rfl)]
    rfl
  · intro hpos hc0 hct
    have hq : progressPercent current total / 100 * ((20 : ℕ) : ℚ) = current * 20 / total := by
      unfold progressPercent
      field_simp
      ring
    have hnn : 0 ≤ current * 20 / total :=
      div_nonneg (mul_nonneg hc0 (by norm_num)) hpos.le
    have hle : current * 20 / total ≤ 20 := by
      rw [div_le_iff₀ hpos]
      nlinarith
    have harrow : progressArrowLen current total 20 ≤ 20 := by
      unfold progressArrowLen pyTrunc
      rw [hq, if_neg (not_lt.mpr hnn)]
      have h1 : ⌊current * 20 / total⌋ ≤ (20 : ℤ) := by
        calc ⌊current * 20 / total⌋ ≤ ⌊(20 : ℚ)⌋ := Int.floor_le_floor hle
        _ = 20 := by norm_num
      exact Int.toNat_le.mpr h1
    refine ⟨?_, rfl, ?_⟩
    · unfold progressCells
      simp only [List.length_append, List.length_replicate]
      omega
    · unfold create_progress_bar
      rw [if_neg (ne_of_gt hpos)]

/-- C10 witness: the non-degenerate branch applied at `current = 5`,
`total = 10`. -/
theorem c10_witness :
    (progressCells 5 10 20).length = 20
    ∧ progressPercent 5 10 = 5 * 100 / 10
    ∧ create_progress_bar 5 10 20
        = "[" ++ String.mk (progressCells 5 10 20) ++ "] "
          ++ formatFixed2 (progressPercent 5 10) ++ "%" :=
  (c10_progress_bar 5 10).2 (by norm_num) (by norm_num) (by norm_num)

/-! ### Claims C5 and C6 -/

/-- An I/O-stage input whose single source message reports size 0: the
stage raises the zero-size `ValueError` and exits with the job failed. -/
def exampleIoZeroInput : IoInput :=
  { task_id := "t1", user_id := 7, status_message_id := 100,
    messages := [{ file_name := some "video.mkv", file_size := 0, video_thumb_id := none }],
    chunks := [], preexisting_merged := none, probe := none,
    quality := "1080", user_settings := exampleSettings }

/-- An I/O-stage input whose workspace already holds a merged_input with
bytes `[1, 2, 3]` (resume-after-crash situation) while the attachment
stream yields `[9, 9]`. -/
def exampleIoResumeInput : IoInput :=
  { task_id := "t1", user_id := 7, status_message_id := 100,
    messages := [{ file_name := some "video.mkv", file_size := 5, video_thumb_id := none }],
    chunks := [[9, 9]], preexisting_merged := some [1, 2, 3],
    probe := some exampleVideoInfo, quality := "1080",
    user_settings := exampleSettings }

/-- C5 counterexample: a job that fails in the I/O stage (zero total size,
a non-retryable terminal failure) exits with its workspace still on disk. -/
theorem c5_counterexample :
    (runIoStage exampleIoZeroInput).1
      = Except.error (PyErr.valueError ("File size is 0 B."))
    ∧ (runIoStage exampleIoZeroInput).2.workspace_exists = true := ⟨rfl, rfl⟩

/-- C5 (amended): the CPU stage removes the workspace on every exit path,
but the I/O stage removes it on none — every exit of
`_run_download_and_prep`, success or failure, leaves the workspace
directory in place. -/
theorem c5_workspace_cleanup_cpu_only :
    (∀ (env : WorkerEnv) (prep : PrepData), (runCpuStage env prep).2 = false)
    ∧ (∀ inp : IoInput, (runIoStage inp).2.workspace_exists = true) := by
  constructor
  · intro env prep
    rfl
  · intro inp
    unfold runIoStage
    rcases inp.messages with _ | ⟨first, rest⟩
    · rfl
    · dsimp only
      split
      · rfl
      · rcases inp.probe with _ | vi <;> rfl

/-- C6 counterexample: with a pre-existing merged_input `[1, 2, 3]` the
I/O stage still re-downloads — afterwards the file holds the streamed
bytes `[9, 9]`, so the pre-existing contents were not left unchanged and
the download was not skipped. -/
theorem c6_counterexample :
    exampleIoResumeInput.preexisting_merged = some [1, 2, 3]
    ∧ (runIoStage exampleIoResumeInput).2.merged = some [9, 9]
    ∧ (runIoStage exampleIoResumeInput).2.merged
        ≠ exampleIoResumeInput.preexisting_merged := by decide

/-- C6 (amended): the I/O stage never checks for a pre-existing
merged_input: whenever the download runs (a nonempty message list of
nonzero total size), `open(..., "wb")` truncates the file and the merged
contents afterwards are exactly the streamed bytes, whatever the
workspace held before. -/
theorem c6_download_never_skipped (inp : IoInput)
    (hne : inp.messages ≠ [])
    (hsz : (inp.messages.map (fun m => m.file_size)).sum ≠ 0) :
    (runIoStage inp).2.merged = some inp.chunks.flatten := by
  unfold runIoStage
  rcases hm : inp.messages with _ | ⟨first, rest⟩
  · exact absurd hm hne
  · rw [hm] at hsz
    dsimp only
    rw [if_neg hsz]
    rcases inp.probe with _ | vi <;> rfl

/-- C6 witness: the amended theorem applied to the resume-situation input;
the pre-existing `[1, 2, 3]` is replaced by the streamed `[9, 9]`. -/
theorem c6_witness :
    (runIoStage exampleIoResumeInput).2.merged = some [9, 9] :=
  c6_download_never_skipped exampleIoResumeInput (by decide) (by decide)

/-! ### Claim C4 -/

/-- Every list is a prefix of itself. -/
theorem startsWithL_refl : ∀ n : List Char, startsWithL n n = true
  | [] => rfl
  | c :: t => by simp [startsWithL, startsWithL_refl t]

/-- A prefix of `l` is a prefix of `l ++ post`. -/
theorem startsWithL_append_of : ∀ n l post : List Char,
    startsWithL n l = true → startsWithL n (l ++ post) = true
  | [], _, _, _ => rfl
  | a :: as, [], _, h => by simp [startsWithL] at h
  | a :: as, b :: bs, post, h => by
    simp only [startsWithL, Bool.and_eq_true] at h
    simp only [List.cons_append, startsWithL, Bool.and_eq_true]
    exact ⟨h.1, startsWithL_append_of as bs post h.2⟩

/-- `n` is a prefix of `n ++ rest`. -/
theorem startsWithL_prefix_self (n rest : List Char) : startsWithL n (n ++ rest) = true :=
  startsWithL_append_of n n rest (startsWithL_refl n)

/-- A prefix occurrence is an occurrence. -/
theorem containsL_of_startsWithL (n l : List Char) (h : startsWithL n l = true) :
    containsL n l = true := by
  cases l with
  | nil =>
    cases n with
    | nil => rfl
    | cons a as => simp [startsWithL] at h
  | cons c t => simp [containsL, h]

/-- An occurrence survives appending on the right. -/
theorem containsL_append_right (n : List Char) : ∀ l post : List Char,
    containsL n l = true → containsL n (l ++ post) = true
  | [], post, h => by
    cases n with
    | nil =>
      cases post with
      | nil => rfl
      | cons c t => simp [containsL, startsWithL]
    | cons a as => simp [containsL, List.isEmpty] at h
  | c :: t, post, h => by
    simp only [containsL, Bool.or_eq_true] at h
    rcases h with h | h
    · have hs := startsWithL_append_of n (c :: t) post h
      simp only [List.cons_append] at hs
      simp [containsL, hs]
    · have hr := containsL_append_right n t post h
      simp [containsL, hr]

/-- An occurrence survives prepending on the left. -/
theorem containsL_append_left (n : List Char) : ∀ pre l : List Char,
    containsL n l = true → containsL n (pre ++ l) = true
  | [], _, h => h
  | c :: pre', l, h => by
    have hr := containsL_append_left n pre' l h
    simp [containsL, hr]

/-- `toList` distributes over string append. -/
theorem stringToListAppend (a b : String) : (a ++ b).toList = a.toList ++ b.toList := by
  cases a with
  | mk da => cases b with
    | mk db => rfl

/-- A string never becomes empty by suffixing `p`. -/
theorem append_p_ne_empty (q : String) : q ++ "p" ≠ "" := by
  intro heq
  have hd : (q ++ "p").toList = ("" : String).toList := congrArg String.toList heq
  rw [stringToListAppend] at hd
  simp at hd

/-- Every member of `parts` occurs as a substring of `joinDot parts`. -/
theorem containsL_joinDot (s : String) : ∀ parts : List String, s ∈ parts →
    containsL s.toList (joinDot parts).toList = true
  | [], hs => absurd hs (List.not_mem_nil s)
  | [p], hs => by
    have hsp : s = p := by simpa using hs
    subst hsp
    exact containsL_of_startsWithL _ _ (startsWithL_refl _)
  | p :: r :: rs, hs => by
    rcases List.mem_cons.mp hs with h | h
    · subst h
      have h1 : joinDot (s :: r :: rs) = (s ++ ".") ++ joinDot (r :: rs) := rfl
      rw [h1, stringToListAppend, stringToListAppend, List.append_assoc]
      exact containsL_of_startsWithL _ _ (startsWithL_prefix_self _ _)
    · have ih := containsL_joinDot s (r :: rs) h
      have h1 : joinDot (p :: r :: rs) = (p ++ ".") ++ joinDot (r :: rs) := rfl
      rw [h1, stringToListAppend]
      exact containsL_append_left _ _ _ ih

/-- The quality argument always surfaces as a `<quality>p` tag inside the
generated filename. -/
theorem quality_tag_in_filename (orig quality brand : String) (vi : VideoInfo) :
    containsStr (quality ++ "p") (generate_standard_filename orig quality brand vi) = true := by
  unfold containsStr generate_standard_filename
  simp only [stringToListAppend, List.append_assoc]
  refine containsL_append_right _ _ _ (containsL_joinDot _ _ ?_)
  refine List.mem_filter.mpr ⟨?_, decide_eq_true (append_p_ne_empty quality)⟩
  unfold filenameProperties
  exact List.mem_append_right _ (List.mem_append_left _ (List.mem_append_left _
    (List.mem_append_left _ (List.mem_append_left _ (List.mem_cons_self _ _)))))

/-- C4 counterexample: for the 1080p request on the 540p example source,
the filename generated in the encode stage is built from
`str(target_quality)` — it contains `540p` and does not contain `1080p`. -/
theorem c4_counterexample :
    encodeOutputFilename examplePrep (targetQuality 1080 540)
      = generate_standard_filename ("video.mkv") (toString (targetQuality 1080 540))
          ("MyEnc") exampleVideoInfo
    ∧ containsStr ("1080p")
        (generate_standard_filename ("video.mkv") (toString (targetQuality 1080 540))
          ("MyEnc") exampleVideoInfo) = false
    ∧ containsStr ("540p")
        (generate_standard_filename ("video.mkv") (toString (targetQuality 1080 540))
          ("MyEnc") exampleVideoInfo) = true :=
  ⟨rfl, by decide, by decide⟩

/-- C4 (amended): when the requested quality exceeds the positive source
height, the quality string the encode stage hands to filename generation is
the clamped height, so the generated filename carries the effective-height
tag `<height>p` — not the requested quality. -/
theorem c4_filename_encodes_clamped_height (q h : ℤ) (hh : 0 < h) (hq : h < q)
    (orig brand : String) (vi : VideoInfo) :
    targetQuality q h = h
    ∧ containsStr (toString h ++ "p")
        (generate_standard_filename orig (toString (targetQuality q h)) brand vi) = true := by
  have ht : targetQuality q h = h := by
    unfold targetQuality
    rw [if_pos ⟨hh, hq⟩]
  refine ⟨ht, ?_⟩
  rw [ht]
  exact quality_tag_in_filename orig (toString h) brand vi

/-- C4 witness: the amended theorem at quality 1080, height 540, for the
example source file. -/
theorem c4_witness :
    targetQuality 1080 540 = 540
    ∧ containsStr (toString (540 : ℤ) ++ "p")
        (generate_standard_filename ("video.mkv") (toString (targetQuality 1080 540))
          ("MyEnc") exampleVideoInfo) = true :=
  c4_filename_encodes_clamped_height 1080 540 (by norm_num) (by norm_num)
    ("video.mkv") ("MyEnc") exampleVideoInfo

end IEnc
